import Mathlib

/-!
# QgsHanaProviderConnection

A shallow embedding of `src/providers/hana/qgshanaproviderconnection.cpp`:
the lazy result iterator, the capability detection, the DDL helpers and the
two SQL entry points (`execSql`, `executeSqlStatement`).

Strings of the program (`QString`) are Lean strings.  The collaborators that
live in other files (the connection pool, the driver connection, the result
set, `QgsHanaUtils`) are parameters of the embedding: every answer they can
give, including a raised exception, is an input of the model.
-/

namespace QgsHana

/-- The program text type. -/
abbrev QString := String

/-! ## `QString::arg`

The call sites of this file use two overloads of the Qt library function
`QString::arg`: the one-argument overload, which replaces every occurrence of
the lowest numbered place marker, and the several-argument overload, which
replaces the markers of all arguments in one pass over the format (so that text
inserted for one argument is never scanned for markers again).  The model
follows the library: the scan of `findArgEscapes` for one argument, and of
`parseMultiArgFormatString` with the numbering of `argToQString` for several.
Field widths and locale-aware digits play no part for string arguments. -/

namespace QString

/-- Value of an ASCII decimal digit. -/
def digitValue (c : Char) : Option Nat :=
  if c.isDigit then some (c.toNat - 48) else none

/-- A piece of a scanned format: one literal character, or a place marker
(`%N` or `%LN`) with the text it was written as. -/
inductive Part where
  | lit (c : Char)
  | marker (src : List Char) (number : Nat)
deriving DecidableEq, Repr

/-- Reads up to `more` further digits of a marker number; returns the number,
the digits read and the text left. -/
def readDigits : Nat → Nat → List Char → List Char → Nat × List Char × List Char
  | 0, acc, src, rest => (acc, src, rest)
  | _ + 1, acc, src, [] => (acc, src, [])
  | more + 1, acc, src, c :: cs =>
    match digitValue c with
    | some d => readDigits more (acc * 10 + d) (src ++ [c]) cs
    | none => (acc, src, c :: cs)

/-- The marker that starts right after a percent sign, if there is one: an
optional `L`, one digit, then at most `more` further digits; the number may not
exceed `maxNumber`. -/
def getEscape (more maxNumber : Nat) (s : List Char) : Option (Nat × List Char × List Char) :=
  let body : List Char × List Char :=
    match s with
    | 'L' :: t => (['%', 'L'], t)
    | _ => (['%'], s)
  match body.2 with
  | [] => none
  | c :: cs =>
    match digitValue c with
    | none => none
    | some d =>
      let r := readDigits more d (body.1 ++ [c]) cs
      if r.1 ≤ maxNumber then some r else none

/-- Scans a format into literal characters and place markers.  `fuel` bounds
the number of scanning steps; the length of the format is always enough. -/
def scan (more maxNumber : Nat) : Nat → List Char → List Part
  | 0, _ => []
  | _ + 1, [] => []
  | fuel + 1, c :: cs =>
    if c = '%' then
      match getEscape more maxNumber cs with
      | some (n, src, rest) => Part.marker src n :: scan more maxNumber fuel rest
      | none => Part.lit c :: scan more maxNumber fuel cs
    else Part.lit c :: scan more maxNumber fuel cs

/-- The marker numbers of a scanned format, in order of appearance. -/
def markerNumbers : List Part → List Nat
  | [] => []
  | Part.lit _ :: ps => markerNumbers ps
  | Part.marker _ n :: ps => n :: markerNumbers ps

/-- Inserts a number into an ascending list without duplicates. -/
def insertNumber (n : Nat) : List Nat → List Nat
  | [] => [n]
  | m :: ms => if n < m then n :: m :: ms else if n = m then m :: ms else m :: insertNumber n ms

/-- The distinct marker numbers in ascending order. -/
def sortedNumbers (ns : List Nat) : List Nat :=
  ns.foldr insertNumber []

/-- Position of a number in a list. -/
def position (n : Nat) : List Nat → Option Nat
  | [] => none
  | m :: ms => if n = m then some 0 else (position n ms).map Nat.succ

/-- The text of a list of parts after replacement: a marker whose number has
position `i` in `numbers` is replaced by the `i`-th argument, every other
marker stays as written. -/
def render (numbers : List Nat) (args : List (List Char)) : List Part → List Char
  | [] => []
  | Part.lit c :: ps => c :: render numbers args ps
  | Part.marker src n :: ps =>
    (match (position n numbers).bind args.get? with
      | some a => a
      | none => src) ++ render numbers args ps

/-- The several-argument overload `fmt.arg(a1, a2, ...)`: a marker takes all
the digits that follow and its number is at most 999; the `i`-th lowest
distinct marker number stands for the `i`-th argument; all replacements happen
in one pass. -/
def multiArg (fmt : QString) (args : List QString) : QString :=
  let parts := scan fmt.data.length 999 fmt.data.length fmt.data
  let numbers := (sortedNumbers (markerNumbers parts)).take args.length
  String.mk (render numbers (args.map String.data) parts)

/-- The one-argument overload `fmt.arg(a)`: markers of at most two digits; every
occurrence of the lowest marker number is replaced by `a`; a format without a
marker is returned unchanged. -/
def arg1 (fmt : QString) (a : QString) : QString :=
  let parts := scan 1 99 fmt.data.length fmt.data
  String.mk (render ((sortedNumbers (markerNumbers parts)).take 1) [a.data] parts)

/-- Dispatch of `fmt.arg(...)` on the number of arguments, as overload
resolution does. -/
def arg (fmt : QString) : List QString → QString
  | [] => fmt
  | [a] => arg1 fmt a
  | args => multiArg fmt args

end QString

/-! ## Exceptions, result sets and the driver connection -/

/-- The exceptions that can travel through this file, by class.  `other` stands
for every class that no handler of this file catches (for instance an
exception raised directly by the ODBC wrapper). -/
inductive Exception where
  | QgsHanaException (what : QString)
  | QgsProviderConnectionException (what : QString)
  | other (what : QString)
deriving DecidableEq, Repr

/-- The row under the cursor: the answers of `getValue( i )` and of
`getString( i )` for every column index `i` (columns count from 1), each a
value or a raised exception. -/
structure Row (α : Type) where
  getValue : Nat → Except Exception α
  getString : Nat → Except Exception QString

/-- A driver result set (`QgsHanaResultSet`), seen from this file: the column
count and column names of its metadata, the row under the cursor, the answers
of the coming `next()` calls (a row, or a raised exception; after the last one
`next()` answers false) and the answer of `close()`. -/
structure QgsHanaResultSet (α : Type) where
  columnCount : Except Exception Nat
  columnName : Nat → Except Exception QString
  current : Row α
  pending : List (Except Exception (Row α))
  closing : Except Exception Unit

namespace QgsHanaResultSet

variable {α : Type}

/-- The call `next()`: the answer and the result set afterwards. -/
def next (rs : QgsHanaResultSet α) : Except Exception Bool × QgsHanaResultSet α :=
  match rs.pending with
  | [] => (Except.ok false, rs)
  | Except.ok row :: rest => (Except.ok true, { rs with current := row, pending := rest })
  | Except.error e :: rest => (Except.error e, { rs with pending := rest })

/-- The call `getValue( i )` on the row under the cursor. -/
def getValue (rs : QgsHanaResultSet α) (i : Nat) : Except Exception α :=
  rs.current.getValue i

/-- Reading column `i` of a list of cells; the columns count from 1. -/
def readColumn {β : Type} (cells : List β) : Nat → Except Exception β
  | 0 => Except.error (Exception.other "invalid column index")
  | j + 1 =>
    match cells.get? j with
    | some v => Except.ok v
    | none => Except.error (Exception.other "invalid column index")

/-- A row given by its list of values, read with `getValue`. -/
def rowOfValues (values : List α) : Row α :=
  { getValue := readColumn values
    getString := fun _ => Except.error (Exception.other "not read as a string") }

/-- A row given by its list of strings, read with `getString`. -/
def rowOfStrings (strings : List QString) : Row α :=
  { getValue := fun _ => Except.error (Exception.other "not read as a value")
    getString := readColumn strings }

/-- The row under the cursor before the first `next()`: there is none. -/
def noRow : Row α :=
  { getValue := fun _ => Except.error (Exception.other "no current row")
    getString := fun _ => Except.error (Exception.other "no current row") }

/-- A result set with `k` columns and the given rows, positioned before the
first row, on which no call raises. -/
def ofRows (k : Nat) (rows : List (List α)) : QgsHanaResultSet α :=
  { columnCount := Except.ok k
    columnName := fun i => Except.ok (toString i)
    current := noRow
    pending := rows.map fun r => Except.ok (rowOfValues r)
    closing := Except.ok () }

end QgsHanaResultSet

/-- The loop `for ( unsigned short i = 1; i <= numColumns; ++i ) ret.push_back( body( i ) )`,
entered with counter `i` and the list built so far.  The counter is a 16 bit
unsigned integer, so the increment wraps at 65536.  `fuel` bounds the number of
iterations; `none` means the fuel ran out. -/
def forColumns {β : Type} (numColumns : Nat) (body : Nat → Except Exception β) :
    Nat → Nat → List β → Option (Except Exception (List β))
  | 0, _, _ => none
  | fuel + 1, i, ret =>
    if i ≤ numColumns then
      match body i with
      | Except.error e => some (Except.error e)
      | Except.ok v => forColumns numColumns body fuel ((i + 1) % 65536) (ret ++ [v])
    else some (Except.ok ret)

/-! ## The lazy result iterator (lines 31-53) -/

/-- State of a `QgsHanaProviderResultIterator`. -/
structure QgsHanaProviderResultIterator (α : Type) where
  mResultSet : QgsHanaResultSet α
  mNumColumns : Nat
  mNextRow : Bool

namespace QgsHanaProviderResultIterator

variable {α : Type}

/-- The constructor: reads the column count, then advances to the first row. -/
def new (resultSet : QgsHanaResultSet α) : Except Exception (QgsHanaProviderResultIterator α) :=
  match resultSet.columnCount with
  | Except.error e => Except.error e
  | Except.ok numColumns =>
    match resultSet.next with
    | (Except.error e, _) => Except.error e
    | (Except.ok nextRow, rs) =>
      Except.ok { mResultSet := rs, mNumColumns := numColumns, mNextRow := nextRow }

/-- The call `nextRowPrivate()`: what it returns or raises, and the iterator
afterwards; `none` when the column loop runs out of fuel. -/
def nextRowPrivate (fuel : Nat) (it : QgsHanaProviderResultIterator α) :
    Option (Except Exception (List α) × QgsHanaProviderResultIterator α) :=
  if !it.mNextRow then some (Except.ok [], it)
  else
    match forColumns it.mNumColumns it.mResultSet.getValue fuel 1 [] with
    | none => none
    | some (Except.error e) => some (Except.error e, it)
    | some (Except.ok ret) =>
      match it.mResultSet.next with
      | (Except.error e, rs) => some (Except.error e, { it with mResultSet := rs })
      | (Except.ok nextRow, rs) =>
        some (Except.ok ret, { it with mResultSet := rs, mNextRow := nextRow })

/-- The call `hasNextRowPrivate()`. -/
def hasNextRowPrivate (it : QgsHanaProviderResultIterator α) : Bool :=
  it.mNextRow

/-- A client that calls `hasNextRowPrivate()` and then `nextRowPrivate()`,
`count` times in a row, and records both answers of every round.  It stops at
the first call that raises or runs out of fuel. -/
def poll (fuel : Nat) : Nat → QgsHanaProviderResultIterator α →
    Option (List (Bool × List α) × QgsHanaProviderResultIterator α)
  | 0, it => some ([], it)
  | count + 1, it =>
    match nextRowPrivate fuel it with
    | some (Except.ok row, it1) =>
      match poll fuel count it1 with
      | some (answers, it2) => some ((it.hasNextRowPrivate, row) :: answers, it2)
      | none => none
    | _ => none

end QgsHanaProviderResultIterator

/-- The iterator `QgsHanaEmptyProviderResultIterator`, which has no state. -/
structure QgsHanaEmptyProviderResultIterator where
deriving DecidableEq, Repr

namespace QgsHanaEmptyProviderResultIterator

/-- The call `nextRowPrivate()`. -/
def nextRowPrivate {α : Type} (_it : QgsHanaEmptyProviderResultIterator) : List α := []

/-- The call `hasNextRowPrivate()`. -/
def hasNextRowPrivate (_it : QgsHanaEmptyProviderResultIterator) : Bool := false

end QgsHanaEmptyProviderResultIterator

/-! ## The provider connection and its collaborators -/

/-- The capabilities this file names (`QgsAbstractDatabaseProviderConnection::Capability`). -/
inductive Capability where
  | CreateVectorTable
  | DropVectorTable
  | RenameVectorTable
  | ExecuteSql
  | SqlLayers
  | Spatial
  | CreateSchema
  | DropSchema
  | RenameSchema
  | Schemas
  | Tables
  | TableExists
deriving DecidableEq, Repr

open Capability

/-- A prepared statement, seen from this file: the answer of
`getMetaDataUnicode()->getColumnCount()`. -/
structure PreparedStatement where
  columnCount : Except Exception Nat

/-- A driver connection (`QgsHanaConnection`), seen from this file: the answer
of each of the calls this file makes on it. -/
structure QgsHanaConnection (α : Type) where
  prepareStatement : QString → Except Exception PreparedStatement
  executeQuery : QString → Except Exception (QgsHanaResultSet α)
  execute : QString → Except Exception Unit
  commit : Except Exception Unit

/-- The collaborators outside this file: the connection pool behind
`QgsHanaConnectionRef conn( dsUri )` (`none` is the null reference), the two
functions of `QgsHanaUtils` this file calls, and `checkCapability` of the base
class, which either returns or raises. -/
structure Environment (α : Type) where
  connectionRef : QString → Option (QgsHanaConnection α)
  quotedIdentifier : QString → QString
  formatErrorMessage : QString → Bool → QString
  checkCapability : Finset Capability → Capability → Except Exception Unit

/-- State of a `QgsHanaProviderConnection`: its uri and its capabilities. -/
structure QgsHanaProviderConnection where
  uri : QString
  mCapabilities : Finset Capability

/-- A call made on the driver connection. -/
inductive DriverCall where
  | prepareStatement (sql : QString)
  | executeQuery (sql : QString)
  | execute (sql : QString)
  | commit
deriving DecidableEq, Repr

/-- What a method did: the calls it made on the driver connection, in order,
and what it returned or raised. -/
structure Outcome (β : Type) where
  calls : List DriverCall
  result : Except Exception β

/-- The call `QObject::tr( text )` with no translation installed: the source text. -/
def tr (text : QString) : QString := text

/-- The handler `catch ( const QgsHanaException &ex )` of `execSql` and
`executeSqlStatement`: rethrows as `QgsProviderConnectionException( ex.what() )`;
every other exception passes through. -/
def rethrowHana {β : Type} (out : Outcome β) : Outcome β :=
  match out.result with
  | Except.error (Exception.QgsHanaException what) =>
    { out with result := Except.error (Exception.QgsProviderConnectionException what) }
  | _ => out

/-! ## `setCapabilities` (lines 71-147) -/

/-- The capabilities set before the privileges are read (lines 90-98). -/
def baseCapabilities : Finset Capability :=
  {CreateVectorTable, DropVectorTable, RenameVectorTable, ExecuteSql, SqlLayers, Spatial}

/-- The capabilities added when the privileges could not be retrieved (lines 145-146). -/
def fallbackCapabilities : Finset Capability :=
  {CreateSchema, DropSchema, RenameSchema, Schemas, Tables, TableExists}

/-- The query of line 104. -/
def privilegesSql : QString :=
  "SELECT OBJECT_TYPE, PRIVILEGE, SCHEMA_NAME, OBJECT_NAME FROM PUBLIC.EFFECTIVE_PRIVILEGES " ++
  "WHERE USER_NAME = CURRENT_USER AND IS_VALID = \x27TRUE\x27"

/-- The body of the loop over the privilege rows (lines 111-132) on one row:
the capabilities afterwards, or the exception a `getString` raised. -/
def privilegeRow {α : Type} (caps : Finset Capability) (row : Row α) :
    Except Exception (Finset Capability) :=
  match row.getString 1 with
  | Except.error e => Except.error e
  | Except.ok objType =>
    match row.getString 2 with
    | Except.error e => Except.error e
    | Except.ok privType =>
      if objType = "SYSTEMPRIVILEGE" then
        if privType = "CREATE SCHEMA" then
          Except.ok (caps ∪ {CreateSchema, DropSchema, RenameSchema})
        else if privType = "CATALOG READ" ∨ privType = "DATA ADMIN" then
          Except.ok (caps ∪ {Schemas, Tables, TableExists})
        else Except.ok caps
      else if objType = "TABLE" ∨ objType = "VIEW" then
        if privType = "SELECT" then
          match row.getString 3 with
          | Except.error e => Except.error e
          | Except.ok schemaName =>
            match row.getString 4 with
            | Except.error e => Except.error e
            | Except.ok objName =>
              if schemaName = "SYS" ∧ objName = "SCHEMAS" then
                Except.ok (caps ∪ {Schemas})
              else if objName = "TABLE_COLUMNS" then
                Except.ok (caps ∪ {Tables, TableExists})
              else Except.ok caps
        else Except.ok caps
      else Except.ok caps

/-- The loop `while ( rsPrivileges->next() )` (lines 109-133) over the answers of
the coming `next()` calls: the capabilities when the loop is left, and whether
it was left normally or by an exception. -/
def privilegeLoop {α : Type} (caps : Finset Capability) :
    List (Except Exception (Row α)) → Finset Capability × Except Exception Unit
  | [] => (caps, Except.ok ())
  | Except.error e :: _ => (caps, Except.error e)
  | Except.ok row :: rest =>
    match privilegeRow caps row with
    | Except.error e => (caps, Except.error e)
    | Except.ok caps1 => privilegeLoop caps1 rest

/-- The `try` block of `setCapabilities` (lines 108-136): the capabilities when
it is left, and whether it was left by `return` or by an exception. -/
def retrievePrivileges {α : Type} (caps : Finset Capability) (conn : QgsHanaConnection α) :
    Finset Capability × Except Exception Unit :=
  match conn.executeQuery privilegesSql with
  | Except.error e => (caps, Except.error e)
  | Except.ok rsPrivileges =>
    match privilegeLoop caps rsPrivileges.pending with
    | (caps1, Except.error e) => (caps1, Except.error e)
    | (caps1, Except.ok ()) =>
      match rsPrivileges.closing with
      | Except.error e => (caps1, Except.error e)
      | Except.ok () => (caps1, Except.ok ())

/-- What `setCapabilities` leaves behind: the capabilities, the messages
logged, and the exception that left the method, if one did. -/
structure CapabilitiesOutcome where
  mCapabilities : Finset Capability
  logged : List QString
  raised : Option Exception

/-- The method `setCapabilities` for a connection with the given uri. -/
def setCapabilities {α : Type} (env : Environment α) (uri : QString) : CapabilitiesOutcome :=
  match env.connectionRef uri with
  | some conn =>
    match retrievePrivileges baseCapabilities conn with
    | (caps, Except.ok ()) => { mCapabilities := caps, logged := [], raised := none }
    | (caps, Except.error (Exception.QgsHanaException what)) =>
      { mCapabilities := caps ∪ fallbackCapabilities
        logged := [QString.arg (tr "Unable to retrieve user privileges: %1")
                    [env.formatErrorMessage what false]]
        raised := none }
    | (caps, Except.error e) => { mCapabilities := caps, logged := [], raised := some e }
  | none =>
    { mCapabilities := baseCapabilities ∪ fallbackCapabilities, logged := [], raised := none }

/-! ## `executeSqlStatement` and the DDL methods (lines 149-154, 204-244, 291-306) -/

namespace QgsHanaProviderConnection

variable {α : Type}

/-- The message of the exception raised when the connection reference is null. -/
def connectionFailed (self : QgsHanaProviderConnection) : Exception :=
  Exception.QgsProviderConnectionException (QString.arg (tr "Connection failed: %1") [self.uri])

/-- The `try` block of `executeSqlStatement` (lines 299-300). -/
def executeAndCommit (conn : QgsHanaConnection α) (sql : QString) : Outcome Unit :=
  match conn.execute sql with
  | Except.error e => { calls := [DriverCall.execute sql], result := Except.error e }
  | Except.ok () =>
    { calls := [DriverCall.execute sql, DriverCall.commit], result := conn.commit }

/-- The method `executeSqlStatement`. -/
def executeSqlStatement (env : Environment α) (self : QgsHanaProviderConnection)
    (sql : QString) : Outcome Unit :=
  match env.connectionRef self.uri with
  | none => { calls := [], result := Except.error self.connectionFailed }
  | some conn => rethrowHana (executeAndCommit conn sql)

/-- A method body that runs after `checkCapability( capability )` returned. -/
def afterCheck {β : Type} (env : Environment α) (self : QgsHanaProviderConnection)
    (capability : Capability) (body : Outcome β) : Outcome β :=
  match env.checkCapability self.mCapabilities capability with
  | Except.error e => { calls := [], result := Except.error e }
  | Except.ok () => body

/-- The method `dropTable`. -/
def dropTable (env : Environment α) (self : QgsHanaProviderConnection)
    (schema name : QString) : Outcome Unit :=
  executeSqlStatement env self
    (QString.arg "DROP TABLE %1.%2" [env.quotedIdentifier schema, env.quotedIdentifier name])

/-- The method `dropVectorTable`. -/
def dropVectorTable (env : Environment α) (self : QgsHanaProviderConnection)
    (schema name : QString) : Outcome Unit :=
  afterCheck env self Capability.DropVectorTable (dropTable env self schema name)

/-- The method `renameTable`. -/
def renameTable (env : Environment α) (self : QgsHanaProviderConnection)
    (schema name newName : QString) : Outcome Unit :=
  executeSqlStatement env self
    (QString.arg "RENAME TABLE %1.%2 TO %1.%3"
      [env.quotedIdentifier schema, env.quotedIdentifier name, env.quotedIdentifier newName])

/-- The method `renameVectorTable`. -/
def renameVectorTable (env : Environment α) (self : QgsHanaProviderConnection)
    (schema name newName : QString) : Outcome Unit :=
  afterCheck env self Capability.RenameVectorTable (renameTable env self schema name newName)

/-- The method `createSchema`. -/
def createSchema (env : Environment α) (self : QgsHanaProviderConnection)
    (name : QString) : Outcome Unit :=
  afterCheck env self Capability.CreateSchema
    (executeSqlStatement env self
      (QString.arg "CREATE SCHEMA %1" [env.quotedIdentifier name]))

/-- The method `dropSchema`; the null string `QString()` is the empty string. -/
def dropSchema (env : Environment α) (self : QgsHanaProviderConnection)
    (name : QString) (force : Bool) : Outcome Unit :=
  afterCheck env self Capability.DropSchema
    (executeSqlStatement env self
      (QString.arg "DROP SCHEMA %1 %2"
        [env.quotedIdentifier name, if force then "CASCADE" else ""]))

/-- The method `renameSchema`. -/
def renameSchema (env : Environment α) (self : QgsHanaProviderConnection)
    (name newName : QString) : Outcome Unit :=
  afterCheck env self Capability.RenameSchema
    (executeSqlStatement env self
      (QString.arg "RENAME SCHEMA %1 TO %2"
        [env.quotedIdentifier name, env.quotedIdentifier newName]))

/-! ## `execSql` (lines 246-289) -/

/-- A `QgsFeedback`: the answer of its `n`-th `isCanceled()` poll, counted from 0. -/
structure QgsFeedback where
  isCanceled : Nat → Bool

/-- The test `feedback && feedback->isCanceled()` at the `n`-th poll. -/
def canceled (feedback : Option QgsFeedback) (n : Nat) : Bool :=
  match feedback with
  | none => false
  | some f => f.isCanceled n

/-- The iterator held by a `QueryResult`. -/
inductive ResultIterator (α : Type) where
  | hana (it : QgsHanaProviderResultIterator α)
  | empty (it : QgsHanaEmptyProviderResultIterator)

/-- A `QueryResult`: its iterator and the column names appended to it. -/
structure QueryResult (α : Type) where
  iterator : ResultIterator α
  columns : List QString

/-- The value `QueryResult( std::make_shared<QgsHanaEmptyProviderResultIterator>() )`. -/
def emptyResult : QueryResult α :=
  { iterator := ResultIterator.empty {}, columns := [] }

/-- The query branch of the `try` block of `execSql` (lines 270-276), entered
after `prepareStatement`; `none` when the column name loop runs out of fuel. -/
def execQuery (conn : QgsHanaConnection α) (sql : QString) (fuel : Nat) :
    Option (Outcome (QueryResult α)) :=
  let calls := [DriverCall.prepareStatement sql, DriverCall.executeQuery sql]
  match conn.executeQuery sql with
  | Except.error e => some { calls := calls, result := Except.error e }
  | Except.ok rs =>
    match QgsHanaProviderResultIterator.new rs with
    | Except.error e => some { calls := calls, result := Except.error e }
    | Except.ok it =>
      match rs.columnCount with
      | Except.error e => some { calls := calls, result := Except.error e }
      | Except.ok numColumns =>
        match forColumns numColumns rs.columnName fuel 1 [] with
        | none => none
        | some (Except.error e) => some { calls := calls, result := Except.error e }
        | some (Except.ok columns) =>
          some { calls := calls
                 result := Except.ok { iterator := ResultIterator.hana it, columns := columns } }

/-- The `try` block of `execSql` (lines 266-283). -/
def execSqlTry (conn : QgsHanaConnection α) (sql : QString) (fuel : Nat) :
    Option (Outcome (QueryResult α)) :=
  match conn.prepareStatement sql with
  | Except.error e =>
    some { calls := [DriverCall.prepareStatement sql], result := Except.error e }
  | Except.ok stmt =>
    match stmt.columnCount with
    | Except.error e =>
      some { calls := [DriverCall.prepareStatement sql], result := Except.error e }
    | Except.ok count =>
      if count > 0 then execQuery conn sql fuel
      else
        match conn.execute sql with
        | Except.error e =>
          some { calls := [DriverCall.prepareStatement sql, DriverCall.execute sql]
                 result := Except.error e }
        | Except.ok () =>
          match conn.commit with
          | Except.error e =>
            some { calls := [DriverCall.prepareStatement sql, DriverCall.execute sql,
                             DriverCall.commit]
                   result := Except.error e }
          | Except.ok () =>
            some { calls := [DriverCall.prepareStatement sql, DriverCall.execute sql,
                             DriverCall.commit]
                   result := Except.ok emptyResult }

/-- The method `execSql`; `none` when the column name loop runs out of fuel. -/
def execSql (env : Environment α) (self : QgsHanaProviderConnection) (sql : QString)
    (feedback : Option QgsFeedback) (fuel : Nat) : Option (Outcome (QueryResult α)) :=
  match env.checkCapability self.mCapabilities Capability.ExecuteSql with
  | Except.error e => some { calls := [], result := Except.error e }
  | Except.ok () =>
    if canceled feedback 0 then some { calls := [], result := Except.ok emptyResult }
    else
      match env.connectionRef self.uri with
      | none => some { calls := [], result := Except.error self.connectionFailed }
      | some conn =>
        if canceled feedback 1 then some { calls := [], result := Except.ok emptyResult }
        else (execSqlTry conn sql fuel).map rethrowHana

end QgsHanaProviderConnection

/-! ## Vocabulary of the statements -/

/-- A privilege row as the query of `setCapabilities` selects it. -/
structure PrivilegeRow where
  objectType : QString
  privilege : QString
  schemaName : QString
  objectName : QString
deriving DecidableEq, Repr

/-- The row a privilege row is for the driver: its four columns, read with
`getString` without raising. -/
def PrivilegeRow.toRow {α : Type} (p : PrivilegeRow) : Row α :=
  QgsHanaResultSet.rowOfStrings [p.objectType, p.privilege, p.schemaName, p.objectName]

/-- The privilege rows were retrieved successfully over `conn`: the query
returns a result set that delivers exactly these rows and closes, and no call
raises. -/
def RetrievedRows {α : Type} (conn : QgsHanaConnection α) (rows : List PrivilegeRow) : Prop :=
  ∃ rs, conn.executeQuery privilegesSql = Except.ok rs ∧
    rs.pending = rows.map (fun p => Except.ok p.toRow) ∧ rs.closing = Except.ok ()

/-- The driver calls of a method that hands one statement to `execute` and
commits when `execute` returned. -/
def oneStatement {α : Type} (conn : QgsHanaConnection α) (sql : QString) : List DriverCall :=
  DriverCall.execute sql ::
    (match conn.execute sql with
      | Except.ok () => [DriverCall.commit]
      | Except.error _ => [])

/-! ## Concrete collaborators, for evaluating the model -/

namespace Sample

/-- An identifier in double quotes, embedded double quotes doubled. -/
def quotedIdentifier (s : QString) : QString :=
  String.mk (Char.ofNat 34 ::
    (s.data.flatMap fun c => if c = Char.ofNat 34 then [c, c] else [c]) ++ [Char.ofNat 34])

/-- A capability check that raises for a missing capability. -/
def checkCapability (caps : Finset Capability) (c : Capability) : Except Exception Unit :=
  if c ∈ caps then Except.ok ()
  else Except.error (Exception.QgsProviderConnectionException "Operation is not supported")

/-- An environment whose pool hands out the given connection reference. -/
def environment (conn : Option (QgsHanaConnection QString)) : Environment QString :=
  { connectionRef := fun _ => conn
    quotedIdentifier := quotedIdentifier
    formatErrorMessage := fun what _ => what
    checkCapability := checkCapability }

/-- A result set with four columns that answers the coming `next()` calls as given. -/
def resultSet (fetches : List (Except Exception (Row QString))) : QgsHanaResultSet QString :=
  { columnCount := Except.ok 4
    columnName := fun i => Except.ok (toString i)
    current := QgsHanaResultSet.noRow
    pending := fetches
    closing := Except.ok () }

/-- A connection that prepares statements without columns and answers the other
calls as given. -/
def connection (query : Except Exception (QgsHanaResultSet QString))
    (execute commit : Except Exception Unit) : QgsHanaConnection QString :=
  { prepareStatement := fun _ => Except.ok { columnCount := Except.ok 0 }
    executeQuery := fun _ => query
    execute := fun _ => execute
    commit := commit }

/-- Privilege rows of a user who may only read `SYS.SCHEMAS`. -/
def selectOnSchemas : List PrivilegeRow :=
  [{ objectType := "TABLE", privilege := "SELECT", schemaName := "SYS", objectName := "SCHEMAS" }]

/-- Privilege rows of a user with two system privileges and one object privilege. -/
def administrator : List PrivilegeRow :=
  [{ objectType := "SYSTEMPRIVILEGE", privilege := "CATALOG READ", schemaName := "",
     objectName := "" },
   { objectType := "TABLE", privilege := "INSERT", schemaName := "GIS", objectName := "ROADS" },
   { objectType := "SYSTEMPRIVILEGE", privilege := "CREATE SCHEMA", schemaName := "",
     objectName := "" }]

/-- A connection whose privilege query delivers the given rows. -/
def connectionWithRows (rows : List PrivilegeRow) : QgsHanaConnection QString :=
  connection (Except.ok (resultSet (rows.map fun p => Except.ok p.toRow)))
    (Except.ok ()) (Except.ok ())

/-- A provider connection with every capability of this file. -/
def provider : QgsHanaProviderConnection :=
  { uri := "dbname=HXE", mCapabilities := baseCapabilities ∪ fallbackCapabilities }

end Sample

/-! ## The formats of this file, filled in -/

namespace QString

theorem arg_connection_failed (uri : QString) :
    arg (tr "Connection failed: %1") [uri] = "Connection failed: " ++ uri := by
  apply String.ext
  have h : (arg (tr "Connection failed: %1") [uri]).data
      = "Connection failed: ".data ++ (uri.data ++ []) := rfl
  rw [h]
  simp [String.data_append]

theorem arg_create_schema (a : QString) :
    arg "CREATE SCHEMA %1" [a] = "CREATE SCHEMA " ++ a := by
  apply String.ext
  have h : (arg "CREATE SCHEMA %1" [a]).data = "CREATE SCHEMA ".data ++ (a.data ++ []) := rfl
  rw [h]
  simp [String.data_append]

theorem arg_drop_schema (a b : QString) :
    arg "DROP SCHEMA %1 %2" [a, b] = "DROP SCHEMA " ++ a ++ " " ++ b := by
  apply String.ext
  have h : (arg "DROP SCHEMA %1 %2" [a, b]).data
      = "DROP SCHEMA ".data ++ (a.data ++ (" ".data ++ (b.data ++ []))) := rfl
  rw [h]
  simp [String.data_append]

theorem arg_rename_schema (a b : QString) :
    arg "RENAME SCHEMA %1 TO %2" [a, b] = "RENAME SCHEMA " ++ a ++ " TO " ++ b := by
  apply String.ext
  have h : (arg "RENAME SCHEMA %1 TO %2" [a, b]).data
      = "RENAME SCHEMA ".data ++ (a.data ++ (" TO ".data ++ (b.data ++ []))) := rfl
  rw [h]
  simp [String.data_append]

theorem arg_drop_table (a b : QString) :
    arg "DROP TABLE %1.%2" [a, b] = "DROP TABLE " ++ a ++ "." ++ b := by
  apply String.ext
  have h : (arg "DROP TABLE %1.%2" [a, b]).data
      = "DROP TABLE ".data ++ (a.data ++ (".".data ++ (b.data ++ []))) := rfl
  rw [h]
  simp [String.data_append]

theorem arg_rename_table (a b c : QString) :
    arg "RENAME TABLE %1.%2 TO %1.%3" [a, b, c]
      = "RENAME TABLE " ++ a ++ "." ++ b ++ " TO " ++ a ++ "." ++ c := by
  apply String.ext
  have h : (arg "RENAME TABLE %1.%2 TO %1.%3" [a, b, c]).data
      = "RENAME TABLE ".data ++ (a.data ++ (".".data ++ (b.data ++ (" TO ".data ++
          (a.data ++ (".".data ++ (c.data ++ []))))))) := rfl
  rw [h]
  simp [String.data_append]

end QString

/-! ## The column loop -/

/-- With fewer than 65535 columns the loop over the columns of a row of values
reads the values in order and returns them. -/
theorem forColumns_readColumn {β : Type} (k : Nat) (hk : k < 65535) :
    ∀ (post pre acc : List β) (fuel : Nat), pre.length + post.length = k → post.length < fuel →
      forColumns k (QgsHanaResultSet.readColumn (pre ++ post)) fuel (pre.length + 1) acc
        = some (Except.ok (acc ++ post)) := by
  intro post
  induction post with
  | nil =>
    intro pre acc fuel hlen hfuel
    obtain ⟨fuel, rfl⟩ : ∃ f, fuel = f + 1 := ⟨fuel - 1, by simp at hfuel; omega⟩
    simp at hlen
    simp [forColumns, hlen]
  | cons v vs ih =>
    intro pre acc fuel hlen hfuel
    obtain ⟨fuel, rfl⟩ : ∃ f, fuel = f + 1 := ⟨fuel - 1, by simp at hfuel; omega⟩
    simp only [List.length_cons] at hlen hfuel
    have hle : pre.length + 1 ≤ k := by omega
    have hget : (pre ++ v :: vs).get? pre.length = some v := by
      rw [List.get?_eq_getElem?, List.getElem?_append_right (le_refl _)]
      simp
    have hread : QgsHanaResultSet.readColumn (pre ++ v :: vs) (pre.length + 1) = Except.ok v := by
      simp only [QgsHanaResultSet.readColumn, hget]
    have hwrap : (pre.length + 1 + 1) % 65536 = (pre ++ [v]).length + 1 := by
      simp only [List.length_append, List.length_singleton]
      exact Nat.mod_eq_of_lt (by omega)
    have hlist : pre ++ v :: vs = (pre ++ [v]) ++ vs := by simp
    rw [forColumns, if_pos hle, hread]
    simp only
    rw [hwrap, hlist, ih (pre ++ [v]) (acc ++ [v]) fuel (by simp; omega) (by omega)]
    simp

/-- The loop never returns when the column count is 65535: the 16 bit counter
cannot exceed it. -/
theorem forColumns_never_returns {β : Type} (body : Nat → Except Exception β) :
    ∀ (fuel i : Nat) (acc ret : List β), i < 65536 →
      forColumns 65535 body fuel i acc ≠ some (Except.ok ret) := by
  intro fuel
  induction fuel with
  | zero => intro i acc ret _; simp [forColumns]
  | succ fuel ih =>
    intro i acc ret hi
    have hle : i ≤ 65535 := by omega
    rw [forColumns, if_pos hle]
    cases hb : body i with
    | error e => simp
    | ok v => exact ih _ _ _ (Nat.mod_lt _ (by decide))

/-! ## The lazy result iterator -/

namespace QgsHanaProviderResultIterator

variable {α : Type}

/-- An iterator without a next row answers every round with false and the
empty list, and stays as it is. -/
theorem poll_exhausted (fuel : Nat) (it : QgsHanaProviderResultIterator α)
    (hit : it.mNextRow = false) :
    ∀ extra, poll fuel extra it = some (List.replicate extra (false, []), it) := by
  intro extra
  induction extra with
  | zero => simp [poll]
  | succ extra ih =>
    have hnext : nextRowPrivate fuel it = some (Except.ok [], it) := by
      simp [nextRowPrivate, hit]
    simp [poll, hnext, ih, hasNextRowPrivate, hit, List.replicate_succ]

/-- One call on an iterator that stands on a row of `k` values: the row is
returned and the cursor moves on. -/
theorem nextRowPrivate_at_row (k fuel : Nat) (hk : k < 65535) (hfuel : k < fuel)
    (r0 : List α) (h0 : r0.length = k) (rs : QgsHanaResultSet α)
    (hcur : rs.current = QgsHanaResultSet.rowOfValues r0) :
    nextRowPrivate fuel { mResultSet := rs, mNumColumns := k, mNextRow := true }
      = match rs.next with
        | (Except.error e, rs1) =>
          some (Except.error e, { mResultSet := rs1, mNumColumns := k, mNextRow := true })
        | (Except.ok nextRow, rs1) =>
          some (Except.ok r0, { mResultSet := rs1, mNumColumns := k, mNextRow := nextRow }) := by
  have hval : rs.getValue = QgsHanaResultSet.readColumn r0 := by
    funext i
    simp [QgsHanaResultSet.getValue, hcur, QgsHanaResultSet.rowOfValues]
  have hloop := forColumns_readColumn k hk r0 [] [] fuel (by simpa using h0) (by omega)
  simp only [List.nil_append, List.length_nil, Nat.zero_add] at hloop
  simp only [nextRowPrivate, hval, hloop]
  rcases hn : rs.next with ⟨a, rs1⟩
  cases a <;> simp

/-- Polling an iterator that stands on the first of some rows of `k` values
delivers these rows in order and then reports the end. -/
theorem poll_at_row (k fuel extra : Nat) (hk : k < 65535) (hfuel : k < fuel) :
    ∀ (rest : List (List α)) (r0 : List α), r0.length = k → (∀ r ∈ rest, r.length = k) →
      ∃ itEnd, poll fuel ((r0 :: rest).length + extra)
          { mResultSet := { QgsHanaResultSet.ofRows k rest with
                            current := QgsHanaResultSet.rowOfValues r0 }
            mNumColumns := k, mNextRow := true }
        = some (((r0 :: rest).map fun r => (true, r)) ++ List.replicate extra (false, []), itEnd)
        ∧ itEnd.mNextRow = false := by
  intro rest
  induction rest with
  | nil =>
    intro r0 h0 _
    have hstep := nextRowPrivate_at_row k fuel hk hfuel r0 h0
      { QgsHanaResultSet.ofRows k ([] : List (List α)) with
        current := QgsHanaResultSet.rowOfValues r0 } rfl
    simp only [QgsHanaResultSet.next, QgsHanaResultSet.ofRows, List.map_nil] at hstep
    refine ⟨{ mResultSet := { QgsHanaResultSet.ofRows k ([] : List (List α)) with
                              current := QgsHanaResultSet.rowOfValues r0 }
              mNumColumns := k, mNextRow := false }, ?_, rfl⟩
    · have hlen : ([r0] : List (List α)).length + extra = extra + 1 := by simp; omega
      rw [hlen, poll]
      simp only [QgsHanaResultSet.ofRows, List.map_nil, hstep]
      rw [poll_exhausted fuel _ rfl extra]
      simp [hasNextRowPrivate, QgsHanaResultSet.ofRows]
  | cons r1 rest ih =>
    intro r0 h0 hrest
    have h1 : r1.length = k := hrest r1 (by simp)
    have hrest1 : ∀ r ∈ rest, r.length = k := fun r hr => hrest r (by simp [hr])
    obtain ⟨itEnd, hpoll, hend⟩ := ih r1 h1 hrest1
    have hstep := nextRowPrivate_at_row k fuel hk hfuel r0 h0
      { QgsHanaResultSet.ofRows k (r1 :: rest) with
        current := QgsHanaResultSet.rowOfValues r0 } rfl
    simp only [QgsHanaResultSet.next, QgsHanaResultSet.ofRows, List.map_cons] at hstep
    refine ⟨itEnd, ?_, hend⟩
    have hlen : (r0 :: r1 :: rest).length + extra = ((r1 :: rest).length + extra) + 1 := by
      simp; omega
    rw [hlen, poll]
    simp only [QgsHanaResultSet.ofRows, List.map_cons, hstep]
    simp only [QgsHanaResultSet.ofRows] at hpoll
    rw [hpoll]
    simp [hasNextRowPrivate]

end QgsHanaProviderResultIterator

/-! ## The capabilities -/

section Capabilities

variable {α : Type}

/-- On a retrieved privilege row no `getString` raises, and the loop body adds
what the row grants. -/
theorem privilegeRow_toRow (caps : Finset Capability) (p : PrivilegeRow) :
    privilegeRow caps (p.toRow : Row α) = Except.ok
      (if p.objectType = "SYSTEMPRIVILEGE" then
        if p.privilege = "CREATE SCHEMA" then caps ∪ {CreateSchema, DropSchema, RenameSchema}
        else if p.privilege = "CATALOG READ" ∨ p.privilege = "DATA ADMIN" then
          caps ∪ {Schemas, Tables, TableExists}
        else caps
      else if p.objectType = "TABLE" ∨ p.objectType = "VIEW" then
        if p.privilege = "SELECT" then
          if p.schemaName = "SYS" ∧ p.objectName = "SCHEMAS" then caps ∪ {Schemas}
          else if p.objectName = "TABLE_COLUMNS" then caps ∪ {Tables, TableExists}
          else caps
        else caps
      else caps) := by
  simp only [privilegeRow, PrivilegeRow.toRow, QgsHanaResultSet.rowOfStrings,
    QgsHanaResultSet.readColumn, List.get?]
  split_ifs <;> rfl

/-- The loop over retrieved rows ends normally, and a capability is in the
result exactly when it was there before or some row added it. -/
theorem privilegeLoop_rows (c : Capability) (P : PrivilegeRow → Prop)
    (hrow : ∀ (caps : Finset Capability) (p : PrivilegeRow), ∀ caps1,
      privilegeRow caps (p.toRow : Row α) = Except.ok caps1 → (c ∈ caps1 ↔ c ∈ caps ∨ P p)) :
    ∀ (rows : List PrivilegeRow) (caps : Finset Capability),
      ∃ caps1, privilegeLoop caps (rows.map fun p => (Except.ok p.toRow : Except Exception (Row α)))
          = (caps1, Except.ok ())
        ∧ (c ∈ caps1 ↔ c ∈ caps ∨ ∃ p ∈ rows, P p) := by
  intro rows
  induction rows with
  | nil => intro caps; exact ⟨caps, rfl, by simp⟩
  | cons p rows ih =>
    intro caps
    obtain ⟨caps0, h0⟩ : ∃ caps0, privilegeRow caps (p.toRow : Row α) = Except.ok caps0 :=
      ⟨_, privilegeRow_toRow caps p⟩
    obtain ⟨caps1, hloop, hmem⟩ := ih caps0
    refine ⟨caps1, ?_, ?_⟩
    · simp only [List.map_cons, privilegeLoop, h0]
      exact hloop
    · rw [hmem, hrow caps p caps0 h0]
      simp only [List.mem_cons, exists_eq_or_imp]
      tauto

/-- When the rows are retrieved successfully, `setCapabilities` returns from
inside the `try` block with what the loop computed from the base capabilities. -/
theorem setCapabilities_retrieved (env : Environment α) (uri : QString)
    (conn : QgsHanaConnection α) (rows : List PrivilegeRow)
    (hconn : env.connectionRef uri = some conn) (hret : RetrievedRows conn rows)
    (c : Capability) (P : PrivilegeRow → Prop)
    (hrow : ∀ (caps : Finset Capability) (p : PrivilegeRow), ∀ caps1,
      privilegeRow caps (p.toRow : Row α) = Except.ok caps1 → (c ∈ caps1 ↔ c ∈ caps ∨ P p)) :
    (setCapabilities env uri).raised = none ∧ (setCapabilities env uri).logged = [] ∧
      (c ∈ (setCapabilities env uri).mCapabilities ↔ c ∈ baseCapabilities ∨ ∃ p ∈ rows, P p) := by
  obtain ⟨rs, hquery, hpending, hclose⟩ := hret
  obtain ⟨caps1, hloop, hmem⟩ := privilegeLoop_rows c P hrow rows baseCapabilities
  have htry : retrievePrivileges baseCapabilities conn = (caps1, Except.ok ()) := by
    simp only [retrievePrivileges, hquery, hpending, hloop, hclose]
  simp only [setCapabilities, hconn, htry]
  exact ⟨trivial, trivial, hmem⟩

/-- What a row does to `CreateSchema`. -/
theorem privilegeRow_createSchema (caps : Finset Capability) (p : PrivilegeRow)
    (caps1 : Finset Capability) (h : privilegeRow caps (p.toRow : Row α) = Except.ok caps1) :
    CreateSchema ∈ caps1 ↔ CreateSchema ∈ caps ∨
      (p.objectType = "SYSTEMPRIVILEGE" ∧ p.privilege = "CREATE SCHEMA") := by
  rw [privilegeRow_toRow] at h
  injection h with h
  subst h
  split_ifs <;> simp_all

/-- What a row does to `DropSchema`. -/
theorem privilegeRow_dropSchema (caps : Finset Capability) (p : PrivilegeRow)
    (caps1 : Finset Capability) (h : privilegeRow caps (p.toRow : Row α) = Except.ok caps1) :
    DropSchema ∈ caps1 ↔ DropSchema ∈ caps ∨
      (p.objectType = "SYSTEMPRIVILEGE" ∧ p.privilege = "CREATE SCHEMA") := by
  rw [privilegeRow_toRow] at h
  injection h with h
  subst h
  split_ifs <;> simp_all

/-- What a row does to `Schemas`. -/
theorem privilegeRow_schemas (caps : Finset Capability) (p : PrivilegeRow)
    (caps1 : Finset Capability) (h : privilegeRow caps (p.toRow : Row α) = Except.ok caps1) :
    Schemas ∈ caps1 ↔ Schemas ∈ caps ∨
      ((p.objectType = "SYSTEMPRIVILEGE" ∧
          (p.privilege = "CATALOG READ" ∨ p.privilege = "DATA ADMIN")) ∨
        ((p.objectType = "TABLE" ∨ p.objectType = "VIEW") ∧ p.privilege = "SELECT" ∧
          p.schemaName = "SYS" ∧ p.objectName = "SCHEMAS")) := by
  rw [privilegeRow_toRow] at h
  injection h with h
  subst h
  split_ifs <;> simp_all

/-- What a row does to `Tables`. -/
theorem privilegeRow_tables (caps : Finset Capability) (p : PrivilegeRow)
    (caps1 : Finset Capability) (h : privilegeRow caps (p.toRow : Row α) = Except.ok caps1) :
    Tables ∈ caps1 ↔ Tables ∈ caps ∨
      ((p.objectType = "SYSTEMPRIVILEGE" ∧
          (p.privilege = "CATALOG READ" ∨ p.privilege = "DATA ADMIN")) ∨
        ((p.objectType = "TABLE" ∨ p.objectType = "VIEW") ∧ p.privilege = "SELECT" ∧
          p.objectName = "TABLE_COLUMNS")) := by
  rw [privilegeRow_toRow] at h
  injection h with h
  subst h
  split_ifs <;> simp_all

/-- What a row does to `TableExists`. -/
theorem privilegeRow_tableExists (caps : Finset Capability) (p : PrivilegeRow)
    (caps1 : Finset Capability) (h : privilegeRow caps (p.toRow : Row α) = Except.ok caps1) :
    TableExists ∈ caps1 ↔ TableExists ∈ caps ∨
      ((p.objectType = "SYSTEMPRIVILEGE" ∧
          (p.privilege = "CATALOG READ" ∨ p.privilege = "DATA ADMIN")) ∨
        ((p.objectType = "TABLE" ∨ p.objectType = "VIEW") ∧ p.privilege = "SELECT" ∧
          p.objectName = "TABLE_COLUMNS")) := by
  rw [privilegeRow_toRow] at h
  injection h with h
  subst h
  split_ifs <;> simp_all

/-- The loop body, on any row, keeps what was there and adds nothing outside
the six capabilities that depend on privileges. -/
theorem privilegeRow_bounds (caps : Finset Capability) (row : Row α)
    (caps1 : Finset Capability) (h : privilegeRow caps row = Except.ok caps1) :
    caps ⊆ caps1 ∧ caps1 ⊆ caps ∪ fallbackCapabilities := by
  unfold privilegeRow at h
  repeat' split at h
  all_goals cases h
  all_goals
    refine ⟨?_, ?_⟩ <;> intro x hx <;>
      (try simp only [Finset.mem_union, Finset.mem_insert, Finset.mem_singleton,
        fallbackCapabilities] at hx ⊢) <;> tauto

/-- The loop, on any answers of the driver, keeps what was there and adds
nothing outside the six capabilities that depend on privileges. -/
theorem privilegeLoop_bounds :
    ∀ (fetches : List (Except Exception (Row α))) (caps : Finset Capability),
      caps ⊆ (privilegeLoop caps fetches).1 ∧
        (privilegeLoop caps fetches).1 ⊆ caps ∪ fallbackCapabilities := by
  intro fetches
  induction fetches with
  | nil => intro caps; exact ⟨Finset.Subset.refl _, Finset.subset_union_left⟩
  | cons f fetches ih =>
    intro caps
    cases f with
    | error e => exact ⟨Finset.Subset.refl _, Finset.subset_union_left⟩
    | ok row =>
      cases hrow : privilegeRow caps row with
      | error e =>
        simp only [privilegeLoop, hrow]
        exact ⟨Finset.Subset.refl _, Finset.subset_union_left⟩
      | ok caps1 =>
        simp only [privilegeLoop, hrow]
        obtain ⟨h1, h2⟩ := privilegeRow_bounds caps row caps1 hrow
        obtain ⟨h3, h4⟩ := ih caps1
        refine ⟨h1.trans h3, h4.trans ?_⟩
        intro x hx
        rcases Finset.mem_union.mp hx with hx | hx
        · exact h2 hx
        · exact Finset.mem_union_right _ hx

/-- The `try` block, however it ends, keeps the base capabilities and adds
nothing outside the six capabilities that depend on privileges. -/
theorem retrievePrivileges_bounds (conn : QgsHanaConnection α) :
    baseCapabilities ⊆ (retrievePrivileges baseCapabilities conn).1 ∧
      (retrievePrivileges baseCapabilities conn).1 ⊆ baseCapabilities ∪ fallbackCapabilities := by
  cases hq : conn.executeQuery privilegesSql with
  | error e =>
    simp only [retrievePrivileges, hq]
    exact ⟨Finset.Subset.refl _, Finset.subset_union_left⟩
  | ok rs =>
    have hb := privilegeLoop_bounds rs.pending baseCapabilities
    have key : (retrievePrivileges baseCapabilities conn).1
        = (privilegeLoop baseCapabilities rs.pending).1 := by
      simp only [retrievePrivileges, hq]
      rcases privilegeLoop baseCapabilities rs.pending with ⟨caps1, r⟩
      cases r with
      | error e => rfl
      | ok u => cases rs.closing <;> rfl
    rw [key]
    exact hb

/-- Adding the six fallback capabilities to anything between the base
capabilities and all twelve gives all twelve. -/
theorem union_fallback (caps : Finset Capability) (h1 : baseCapabilities ⊆ caps)
    (h2 : caps ⊆ baseCapabilities ∪ fallbackCapabilities) :
    caps ∪ fallbackCapabilities = baseCapabilities ∪ fallbackCapabilities := by
  apply Finset.Subset.antisymm
  · exact Finset.union_subset h2 Finset.subset_union_right
  · exact Finset.union_subset_union h1 (Finset.Subset.refl _)

/-- The loop body leaves the six base capabilities as they are. -/
theorem privilegeRow_base (c : Capability) (hc : c ∈ baseCapabilities)
    (caps : Finset Capability) (p : PrivilegeRow)
    (caps1 : Finset Capability) (h : privilegeRow caps (p.toRow : Row α) = Except.ok caps1) :
    c ∈ caps1 ↔ c ∈ caps ∨ False := by
  obtain ⟨h1, h2⟩ := privilegeRow_bounds caps p.toRow caps1 h
  have hnot : c ∉ fallbackCapabilities := by
    revert hc
    cases c <;> decide
  constructor
  · intro hx
    rcases Finset.mem_union.mp (h2 hx) with hx | hx
    · exact Or.inl hx
    · exact absurd hx hnot
  · rintro (hx | hx)
    · exact h1 hx
    · exact hx.elim

/-- The loop over retrieved rows followed by further answers of the driver
continues with what the rows left. -/
theorem privilegeLoop_append (tail : List (Except Exception (Row α))) :
    ∀ (rows : List PrivilegeRow) (caps : Finset Capability),
      privilegeLoop caps ((rows.map fun p => (Except.ok p.toRow : Except Exception (Row α))) ++ tail)
        = privilegeLoop
            (privilegeLoop caps
              (rows.map fun p => (Except.ok p.toRow : Except Exception (Row α)))).1 tail := by
  intro rows
  induction rows with
  | nil => intro caps; rfl
  | cons p rows ih =>
    intro caps
    simp only [List.map_cons, List.cons_append, privilegeLoop, privilegeRow_toRow]
    exact ih _

/-- When the `try` block is left by a `QgsHanaException`, all twelve
capabilities are set. -/
theorem setCapabilities_fallback (env : Environment α) (uri : QString)
    (conn : QgsHanaConnection α) (m : QString) (hconn : env.connectionRef uri = some conn)
    (h : (retrievePrivileges baseCapabilities conn).2 = Except.error (Exception.QgsHanaException m)) :
    (setCapabilities env uri).mCapabilities = baseCapabilities ∪ fallbackCapabilities
      ∧ (setCapabilities env uri).raised = none := by
  obtain ⟨h1, h2⟩ := retrievePrivileges_bounds conn
  rcases hr : retrievePrivileges baseCapabilities conn with ⟨caps, r⟩
  rw [hr] at h h1 h2
  simp only at h h1 h2
  subst h
  simp only [setCapabilities, hconn, hr]
  exact ⟨union_fallback caps h1 h2, trivial⟩

end Capabilities

/-! ## The statements about the lazy result iterator -/

section IteratorClaims

variable {α : Type}

open QgsHanaProviderResultIterator

/-- Delivery in cursor order, for fewer than 65535 columns.  Over a result set
with `k` columns and rows `r1..rn` of `k` values each, the constructor returns
an iterator, and a client that polls it `n + extra` times gets: in round `i`
up to `n`, `hasNextRowPrivate` true and then row `ri` (its `k` values in column
order) from `nextRowPrivate`; in every later round `hasNextRowPrivate` false
and the empty list; and `hasNextRowPrivate` is false at the end.  Any fuel
above `k` is enough for every call. -/
theorem iterator_delivers_rows (k : Nat) (rows : List (List α)) (extra fuel : Nat)
    (hk : k < 65535) (hrows : ∀ r ∈ rows, r.length = k) (hfuel : k < fuel) :
    ∃ it0, QgsHanaProviderResultIterator.new (QgsHanaResultSet.ofRows k rows) = Except.ok it0 ∧
      ∃ itEnd, poll fuel (rows.length + extra) it0
          = some ((rows.map fun r => (true, r)) ++ List.replicate extra (false, []), itEnd)
        ∧ itEnd.hasNextRowPrivate = false := by
  cases rows with
  | nil =>
    refine ⟨{ mResultSet := QgsHanaResultSet.ofRows k [], mNumColumns := k, mNextRow := false },
      rfl,
      { mResultSet := QgsHanaResultSet.ofRows k [], mNumColumns := k, mNextRow := false },
      ?_, rfl⟩
    simpa using poll_exhausted fuel
      { mResultSet := QgsHanaResultSet.ofRows k ([] : List (List α)), mNumColumns := k,
        mNextRow := false } rfl extra
  | cons r0 rest =>
    have h0 : r0.length = k := hrows r0 (by simp)
    have hrest : ∀ r ∈ rest, r.length = k := fun r hr => hrows r (by simp [hr])
    obtain ⟨itEnd, hpoll, hend⟩ := poll_at_row k fuel extra hk hfuel rest r0 h0 hrest
    exact ⟨_, rfl, itEnd, hpoll, hend⟩

/-- The delivery theorem at three rows of two columns, polled five times. -/
theorem iterator_delivers_rows_witness :
    ∃ it0, QgsHanaProviderResultIterator.new
        (QgsHanaResultSet.ofRows 2 [[10, 11], [20, 21], [30, 31]]) = Except.ok it0 ∧
      ∃ itEnd, poll 3 (3 + 2) it0
          = some ([(true, [10, 11]), (true, [20, 21]), (true, [30, 31]), (false, []),
                   (false, [])], itEnd)
        ∧ itEnd.hasNextRowPrivate = false :=
  iterator_delivers_rows 2 [[10, 11], [20, 21], [30, 31]] 2 3 (by decide) (by decide)
    (by decide)

/-- C1, at its failing input: over a result set with 65535 columns and one row
the constructor returns an iterator whose `hasNextRowPrivate` is true, but the
first `nextRowPrivate` never returns the row, whatever the fuel: the 16 bit
column counter wraps from 65535 to 0 and stays within the column count. -/
theorem iterator_65535_columns_returns_no_row :
    ∃ it0, QgsHanaProviderResultIterator.new
        (QgsHanaResultSet.ofRows 65535 [List.replicate 65535 (0 : Nat)]) = Except.ok it0 ∧
      it0.hasNextRowPrivate = true ∧
      ∀ fuel row it1, nextRowPrivate fuel it0 ≠ some (Except.ok row, it1) := by
  refine ⟨_, rfl, rfl, ?_⟩
  intro fuel row it1 h
  simp only [nextRowPrivate, QgsHanaResultSet.ofRows, QgsHanaResultSet.next, List.map_cons,
    List.map_nil, Bool.not_true, Bool.false_eq_true, if_false] at h
  split at h
  · cases h
  · cases h
  · rename_i ret hloop
    exact forColumns_never_returns _ fuel 1 [] ret (by decide) hloop

end IteratorClaims

/-! ## The statements about `setCapabilities` -/

section CapabilityClaims

variable {α : Type}

/-- C4: all capabilities are enabled when the privileges cannot be retrieved.
If the connection reference is null, or the `try` block of `setCapabilities`
is left by a `QgsHanaException` raised at whatever step (the privilege query,
a `next()` after any number of rows that were already processed, a `getString`,
or `close()`), the capability set afterwards is exactly the twelve capabilities
and no exception leaves the method. -/
theorem setCapabilities_all_when_not_retrieved (env : Environment α) (uri : QString) :
    (env.connectionRef uri = none →
      (setCapabilities env uri).mCapabilities =
        {CreateVectorTable, DropVectorTable, RenameVectorTable, ExecuteSql, SqlLayers, Spatial,
          CreateSchema, DropSchema, RenameSchema, Schemas, Tables, TableExists}) ∧
    (∀ (conn : QgsHanaConnection α) (m : QString), env.connectionRef uri = some conn →
      ((retrievePrivileges baseCapabilities conn).2
          = Except.error (Exception.QgsHanaException m) ∨
        conn.executeQuery privilegesSql = Except.error (Exception.QgsHanaException m) ∨
        (∃ (rs : QgsHanaResultSet α) (done : List PrivilegeRow)
            (rest : List (Except Exception (Row α))),
          conn.executeQuery privilegesSql = Except.ok rs ∧
          rs.pending = (done.map fun p => Except.ok p.toRow) ++
            Except.error (Exception.QgsHanaException m) :: rest) ∨
        (∃ (rs : QgsHanaResultSet α) (done : List PrivilegeRow) (row : Row α)
            (rest : List (Except Exception (Row α))),
          conn.executeQuery privilegesSql = Except.ok rs ∧
          rs.pending = (done.map fun p => Except.ok p.toRow) ++ Except.ok row :: rest ∧
          row.getString 1 = Except.error (Exception.QgsHanaException m)) ∨
        (∃ (rs : QgsHanaResultSet α) (rows : List PrivilegeRow),
          conn.executeQuery privilegesSql = Except.ok rs ∧
          rs.pending = rows.map (fun p => Except.ok p.toRow) ∧
          rs.closing = Except.error (Exception.QgsHanaException m))) →
      (setCapabilities env uri).mCapabilities =
          {CreateVectorTable, DropVectorTable, RenameVectorTable, ExecuteSql, SqlLayers, Spatial,
            CreateSchema, DropSchema, RenameSchema, Schemas, Tables, TableExists}
        ∧ (setCapabilities env uri).raised = none) := by
  have hall : baseCapabilities ∪ fallbackCapabilities =
      ({CreateVectorTable, DropVectorTable, RenameVectorTable, ExecuteSql, SqlLayers, Spatial,
        CreateSchema, DropSchema, RenameSchema, Schemas, Tables, TableExists} :
        Finset Capability) := by decide
  refine ⟨?_, ?_⟩
  · intro hnull
    simp only [setCapabilities, hnull]
    exact hall
  · intro conn m hconn hstep
    rw [← hall]
    apply setCapabilities_fallback env uri conn m hconn
    rcases hstep with h | h | ⟨rs, done, rest, hq, hp⟩ | ⟨rs, done, row, rest, hq, hp, hg⟩ |
      ⟨rs, rows, hq, hp, hc⟩
    · exact h
    · simp only [retrievePrivileges, h]
    · simp only [retrievePrivileges, hq, hp, privilegeLoop_append, privilegeLoop]
    · simp only [retrievePrivileges, hq, hp, privilegeLoop_append, privilegeLoop, privilegeRow, hg]
    · obtain ⟨caps1, hloop, _⟩ :=
        @privilegeLoop_rows α CreateSchema _ privilegeRow_createSchema rows baseCapabilities
      simp only [retrievePrivileges, hq, hp, hloop, hc]

/-- Witness of C4: the third `next()` raises after two rows were processed,
one of which had already granted `Schemas`, `Tables` and `TableExists`. -/
theorem setCapabilities_all_when_not_retrieved_witness :
    (setCapabilities
        (Sample.environment (some (Sample.connection
          (Except.ok (Sample.resultSet
            ((Sample.administrator.take 2).map (fun p => Except.ok p.toRow) ++
              [Except.error (Exception.QgsHanaException "connection lost")])))
          (Except.ok ()) (Except.ok ()))))
        "dbname=HXE").mCapabilities =
      {CreateVectorTable, DropVectorTable, RenameVectorTable, ExecuteSql, SqlLayers, Spatial,
        CreateSchema, DropSchema, RenameSchema, Schemas, Tables, TableExists}
    ∧ (setCapabilities (Sample.environment none) "dbname=HXE").mCapabilities =
      {CreateVectorTable, DropVectorTable, RenameVectorTable, ExecuteSql, SqlLayers, Spatial,
        CreateSchema, DropSchema, RenameSchema, Schemas, Tables, TableExists} :=
  ⟨((setCapabilities_all_when_not_retrieved _ "dbname=HXE").2 _ "connection lost" rfl
      (Or.inr (Or.inr (Or.inl ⟨_, Sample.administrator.take 2, [], rfl, rfl⟩)))).1,
    (setCapabilities_all_when_not_retrieved (Sample.environment none) "dbname=HXE").1 rfl⟩

/-- C5, as amended: for privilege rows that are retrieved successfully, the
system privilege `CATALOG READ` or `DATA ADMIN` puts `Schemas`, `Tables` and
`TableExists` into the capability set, and so do object privileges: `Schemas`
is in the set exactly when some row has that system privilege or grants
`SELECT` on the table or view `SYS.SCHEMAS`; `Tables` and `TableExists` are in
the set exactly when some row has that system privilege or grants `SELECT` on a
table or view named `TABLE_COLUMNS`. -/
theorem setCapabilities_catalog (env : Environment α) (uri : QString)
    (conn : QgsHanaConnection α) (rows : List PrivilegeRow)
    (hconn : env.connectionRef uri = some conn) (hret : RetrievedRows conn rows) :
    ((∃ p ∈ rows, p.objectType = "SYSTEMPRIVILEGE" ∧
        (p.privilege = "CATALOG READ" ∨ p.privilege = "DATA ADMIN")) →
      Schemas ∈ (setCapabilities env uri).mCapabilities ∧
      Tables ∈ (setCapabilities env uri).mCapabilities ∧
      TableExists ∈ (setCapabilities env uri).mCapabilities) ∧
    (Schemas ∈ (setCapabilities env uri).mCapabilities ↔
      ∃ p ∈ rows,
        (p.objectType = "SYSTEMPRIVILEGE" ∧
          (p.privilege = "CATALOG READ" ∨ p.privilege = "DATA ADMIN")) ∨
        ((p.objectType = "TABLE" ∨ p.objectType = "VIEW") ∧ p.privilege = "SELECT" ∧
          p.schemaName = "SYS" ∧ p.objectName = "SCHEMAS")) ∧
    (Tables ∈ (setCapabilities env uri).mCapabilities ↔
      ∃ p ∈ rows,
        (p.objectType = "SYSTEMPRIVILEGE" ∧
          (p.privilege = "CATALOG READ" ∨ p.privilege = "DATA ADMIN")) ∨
        ((p.objectType = "TABLE" ∨ p.objectType = "VIEW") ∧ p.privilege = "SELECT" ∧
          p.objectName = "TABLE_COLUMNS")) ∧
    (TableExists ∈ (setCapabilities env uri).mCapabilities ↔
      ∃ p ∈ rows,
        (p.objectType = "SYSTEMPRIVILEGE" ∧
          (p.privilege = "CATALOG READ" ∨ p.privilege = "DATA ADMIN")) ∨
        ((p.objectType = "TABLE" ∨ p.objectType = "VIEW") ∧ p.privilege = "SELECT" ∧
          p.objectName = "TABLE_COLUMNS")) := by
  obtain ⟨_, _, hs⟩ := setCapabilities_retrieved env uri conn rows hconn hret Schemas _
    privilegeRow_schemas
  obtain ⟨_, _, ht⟩ := setCapabilities_retrieved env uri conn rows hconn hret Tables _
    privilegeRow_tables
  obtain ⟨_, _, he⟩ := setCapabilities_retrieved env uri conn rows hconn hret TableExists _
    privilegeRow_tableExists
  have hbs : Schemas ∉ baseCapabilities := by decide
  have hbt : Tables ∉ baseCapabilities := by decide
  have hbe : TableExists ∉ baseCapabilities := by decide
  simp only [hbs, hbt, hbe, false_or] at hs ht he
  refine ⟨?_, hs, ht, he⟩
  rintro ⟨p, hp, h⟩
  exact ⟨hs.mpr ⟨p, hp, Or.inl h⟩, ht.mpr ⟨p, hp, Or.inl h⟩, he.mpr ⟨p, hp, Or.inl h⟩⟩

/-- Witness of C5 as amended: a user with `CATALOG READ` among three rows. -/
theorem setCapabilities_catalog_witness :
    Schemas ∈ (setCapabilities
        (Sample.environment (some (Sample.connectionWithRows Sample.administrator)))
        "dbname=HXE").mCapabilities ∧
    Tables ∈ (setCapabilities
        (Sample.environment (some (Sample.connectionWithRows Sample.administrator)))
        "dbname=HXE").mCapabilities ∧
    TableExists ∈ (setCapabilities
        (Sample.environment (some (Sample.connectionWithRows Sample.administrator)))
        "dbname=HXE").mCapabilities :=
  (setCapabilities_catalog
      (Sample.environment (some (Sample.connectionWithRows Sample.administrator)))
      "dbname=HXE" (Sample.connectionWithRows Sample.administrator) Sample.administrator rfl
      ⟨_, rfl, rfl, rfl⟩).1
    ⟨_, List.mem_cons_self _ _, rfl, Or.inl rfl⟩

/-- Counterexample to C5 as stated: the rows of a user whose only privilege is
`SELECT` on `SYS.SCHEMAS` are retrieved successfully and hold no system
privilege at all, and yet `Schemas` is in the capability set. -/
theorem setCapabilities_catalog_counterexample :
    RetrievedRows (Sample.connectionWithRows Sample.selectOnSchemas) Sample.selectOnSchemas ∧
    Schemas ∈ (setCapabilities
        (Sample.environment (some (Sample.connectionWithRows Sample.selectOnSchemas)))
        "dbname=HXE").mCapabilities ∧
    ¬ ∃ p ∈ Sample.selectOnSchemas, p.objectType = "SYSTEMPRIVILEGE" ∧
        (p.privilege = "CATALOG READ" ∨ p.privilege = "DATA ADMIN") := by
  refine ⟨⟨_, rfl, rfl, rfl⟩, ?_, ?_⟩
  · have h := (setCapabilities_retrieved
        (Sample.environment (some (Sample.connectionWithRows Sample.selectOnSchemas)))
        "dbname=HXE" (Sample.connectionWithRows Sample.selectOnSchemas) Sample.selectOnSchemas
        rfl ⟨_, rfl, rfl, rfl⟩ Schemas _ privilegeRow_schemas).2.2
    rw [h]
    exact Or.inr ⟨_, List.mem_cons_self _ _, Or.inr ⟨Or.inl rfl, rfl, rfl, rfl⟩⟩
  · simp [Sample.selectOnSchemas]

/-- C6: for privilege rows that are retrieved successfully, in whatever order,
`CreateSchema` and `DropSchema` are in the capability set exactly when some row
has OBJECT_TYPE `SYSTEMPRIVILEGE` and PRIVILEGE `CREATE SCHEMA`, and the
vector table, SQL and `Spatial` capabilities are in the set whatever the rows. -/
theorem setCapabilities_createSchema (env : Environment α) (uri : QString)
    (conn : QgsHanaConnection α) (rows : List PrivilegeRow)
    (hconn : env.connectionRef uri = some conn) (hret : RetrievedRows conn rows) :
    (CreateSchema ∈ (setCapabilities env uri).mCapabilities ↔
      ∃ p ∈ rows, p.objectType = "SYSTEMPRIVILEGE" ∧ p.privilege = "CREATE SCHEMA") ∧
    (DropSchema ∈ (setCapabilities env uri).mCapabilities ↔
      ∃ p ∈ rows, p.objectType = "SYSTEMPRIVILEGE" ∧ p.privilege = "CREATE SCHEMA") ∧
    CreateVectorTable ∈ (setCapabilities env uri).mCapabilities ∧
    DropVectorTable ∈ (setCapabilities env uri).mCapabilities ∧
    RenameVectorTable ∈ (setCapabilities env uri).mCapabilities ∧
    ExecuteSql ∈ (setCapabilities env uri).mCapabilities ∧
    SqlLayers ∈ (setCapabilities env uri).mCapabilities ∧
    Spatial ∈ (setCapabilities env uri).mCapabilities := by
  obtain ⟨_, _, hc⟩ := setCapabilities_retrieved env uri conn rows hconn hret CreateSchema _
    privilegeRow_createSchema
  obtain ⟨_, _, hd⟩ := setCapabilities_retrieved env uri conn rows hconn hret DropSchema _
    privilegeRow_dropSchema
  have hbc : CreateSchema ∉ baseCapabilities := by decide
  have hbd : DropSchema ∉ baseCapabilities := by decide
  simp only [hbc, hbd, false_or] at hc hd
  have hbase : ∀ c ∈ baseCapabilities, c ∈ (setCapabilities env uri).mCapabilities := by
    intro c hcb
    exact (setCapabilities_retrieved env uri conn rows hconn hret c _
      (privilegeRow_base c hcb)).2.2.mpr (Or.inl hcb)
  exact ⟨hc, hd, hbase _ (by decide), hbase _ (by decide), hbase _ (by decide),
    hbase _ (by decide), hbase _ (by decide), hbase _ (by decide)⟩

/-- Witness of C6: a user with `CREATE SCHEMA` as the last of three rows. -/
theorem setCapabilities_createSchema_witness :
    CreateSchema ∈ (setCapabilities
        (Sample.environment (some (Sample.connectionWithRows Sample.administrator)))
        "dbname=HXE").mCapabilities ∧
    Spatial ∈ (setCapabilities
        (Sample.environment (some (Sample.connectionWithRows Sample.administrator)))
        "dbname=HXE").mCapabilities :=
  have h := setCapabilities_createSchema
    (Sample.environment (some (Sample.connectionWithRows Sample.administrator)))
    "dbname=HXE" (Sample.connectionWithRows Sample.administrator) Sample.administrator rfl
    ⟨_, rfl, rfl, rfl⟩
  ⟨h.1.mpr ⟨_, List.mem_cons_of_mem _ (List.mem_cons_of_mem _ (List.mem_cons_self _ _)),
      rfl, rfl⟩, h.2.2.2.2.2.2.2⟩

end CapabilityClaims

/-! ## The statements about `execSql`, `executeSqlStatement` and the DDL methods -/

section SqlClaims

variable {α : Type}

open QgsHanaProviderConnection

/-- The sample provider connection passes every capability check. -/
theorem Sample.provider_checks (conn : Option (QgsHanaConnection QString)) (c : Capability) :
    (Sample.environment conn).checkCapability Sample.provider.mCapabilities c = Except.ok () := by
  cases c <;>
    simp [Sample.environment, Sample.checkCapability, Sample.provider, baseCapabilities,
      fallbackCapabilities]

/-- The message raised for a null connection reference, spelled out. -/
theorem connectionFailed_eq (self : QgsHanaProviderConnection) :
    self.connectionFailed
      = Exception.QgsProviderConnectionException ("Connection failed: " ++ self.uri) := by
  simp only [connectionFailed, QString.arg_connection_failed]

/-- The statement run with a connection at hand: the calls made and the result. -/
theorem executeSqlStatement_calls (env : Environment α) (self : QgsHanaProviderConnection)
    (conn : QgsHanaConnection α) (hconn : env.connectionRef self.uri = some conn)
    (sql : QString) :
    (executeSqlStatement env self sql).calls = oneStatement conn sql := by
  simp only [executeSqlStatement, hconn, executeAndCommit, oneStatement]
  cases hx : conn.execute sql with
  | error e => cases e <;> simp [rethrowHana]
  | ok u =>
    cases hc : conn.commit with
    | error e => cases e <;> simp [rethrowHana, hc]
    | ok u2 => simp [rethrowHana, hc]

/-- C2: error translation in `execSql` and `executeSqlStatement`.  For every SQL
text, a `QgsHanaException` with message `m` raised by the driver at
`prepareStatement`, at reading the statement metadata, at `executeQuery`, at
`execute` or at `commit` (and, last conjunct, at whatever step of the `try`
block of `execSql`) makes the method fail with a
`QgsProviderConnectionException` whose message is `m`; and a null connection
reference makes it fail with the message "Connection failed: " followed by the
uri, no call having been made on a driver connection. -/
theorem error_translation (env : Environment α) (self : QgsHanaProviderConnection)
    (sql m : QString) :
    (env.connectionRef self.uri = none →
      executeSqlStatement env self sql =
        { calls := []
          result := Except.error
            (Exception.QgsProviderConnectionException ("Connection failed: " ++ self.uri)) }) ∧
    (∀ conn, env.connectionRef self.uri = some conn →
      (conn.execute sql = Except.error (Exception.QgsHanaException m) →
        executeSqlStatement env self sql =
          { calls := [DriverCall.execute sql]
            result := Except.error (Exception.QgsProviderConnectionException m) }) ∧
      (conn.execute sql = Except.ok () →
        conn.commit = Except.error (Exception.QgsHanaException m) →
        executeSqlStatement env self sql =
          { calls := [DriverCall.execute sql, DriverCall.commit]
            result := Except.error (Exception.QgsProviderConnectionException m) })) ∧
    (∀ feedback fuel,
      env.checkCapability self.mCapabilities Capability.ExecuteSql = Except.ok () →
      canceled feedback 0 = false → env.connectionRef self.uri = none →
      execSql env self sql feedback fuel =
        some { calls := []
               result := Except.error
                 (Exception.QgsProviderConnectionException
                   ("Connection failed: " ++ self.uri)) }) ∧
    (∀ feedback fuel conn,
      env.checkCapability self.mCapabilities Capability.ExecuteSql = Except.ok () →
      canceled feedback 0 = false → env.connectionRef self.uri = some conn →
      canceled feedback 1 = false →
      (conn.prepareStatement sql = Except.error (Exception.QgsHanaException m) →
        execSql env self sql feedback fuel =
          some { calls := [DriverCall.prepareStatement sql]
                 result := Except.error (Exception.QgsProviderConnectionException m) }) ∧
      (∀ stmt, conn.prepareStatement sql = Except.ok stmt →
        (stmt.columnCount = Except.error (Exception.QgsHanaException m) →
          execSql env self sql feedback fuel =
            some { calls := [DriverCall.prepareStatement sql]
                   result := Except.error (Exception.QgsProviderConnectionException m) }) ∧
        (∀ count, stmt.columnCount = Except.ok count →
          (0 < count →
            conn.executeQuery sql = Except.error (Exception.QgsHanaException m) →
            execSql env self sql feedback fuel =
              some { calls := [DriverCall.prepareStatement sql, DriverCall.executeQuery sql]
                     result := Except.error (Exception.QgsProviderConnectionException m) }) ∧
          (count = 0 →
            conn.execute sql = Except.error (Exception.QgsHanaException m) →
            execSql env self sql feedback fuel =
              some { calls := [DriverCall.prepareStatement sql, DriverCall.execute sql]
                     result := Except.error (Exception.QgsProviderConnectionException m) }) ∧
          (count = 0 → conn.execute sql = Except.ok () →
            conn.commit = Except.error (Exception.QgsHanaException m) →
            execSql env self sql feedback fuel =
              some { calls := [DriverCall.prepareStatement sql, DriverCall.execute sql,
                               DriverCall.commit]
                     result := Except.error (Exception.QgsProviderConnectionException m) }))) ∧
      (∀ out, execSqlTry conn sql fuel = some out →
        out.result = Except.error (Exception.QgsHanaException m) →
        execSql env self sql feedback fuel =
          some { calls := out.calls
                 result := Except.error (Exception.QgsProviderConnectionException m) })) := by
  refine ⟨?_, ?_, ?_, ?_⟩
  · intro hnull
    simp only [executeSqlStatement, hnull, connectionFailed_eq]
  · intro conn hconn
    refine ⟨?_, ?_⟩
    · intro hx
      simp only [executeSqlStatement, hconn, executeAndCommit, hx, rethrowHana]
    · intro hx hc
      simp only [executeSqlStatement, hconn, executeAndCommit, hx, hc, rethrowHana]
  · intro feedback fuel hcheck hcancel hnull
    simp only [execSql, hcheck, hcancel, hnull, connectionFailed_eq, Bool.false_eq_true,
      if_false]
  · intro feedback fuel conn hcheck hcancel0 hconn hcancel1
    have hrun : execSql env self sql feedback fuel
        = (execSqlTry conn sql fuel).map rethrowHana := by
      simp only [execSql, hcheck, hcancel0, hconn, hcancel1, Bool.false_eq_true, if_false]
    rw [hrun]
    refine ⟨?_, ?_, ?_⟩
    · intro hp
      simp only [execSqlTry, hp, Option.map_some', rethrowHana]
    · intro stmt hp
      refine ⟨?_, ?_⟩
      · intro hm
        simp only [execSqlTry, hp, hm, Option.map_some', rethrowHana]
      · intro count hm
        refine ⟨?_, ?_, ?_⟩
        · intro hpos hq
          simp only [execSqlTry, hp, hm, gt_iff_lt, hpos, if_true, execQuery, hq,
            Option.map_some', rethrowHana]
        · intro hzero hx
          subst hzero
          simp only [execSqlTry, hp, hm, gt_iff_lt, Nat.lt_irrefl, if_false, hx,
            Option.map_some', rethrowHana]
        · intro hzero hx hc
          subst hzero
          simp only [execSqlTry, hp, hm, gt_iff_lt, Nat.lt_irrefl, if_false, hx, hc,
            Option.map_some', rethrowHana]
    · intro out hout hres
      simp only [hout, Option.map_some', rethrowHana, hres]

/-- Witness of C2: a `commit` that raises inside `executeSqlStatement`, and a
`prepareStatement` that raises inside `execSql`. -/
theorem error_translation_witness :
    executeSqlStatement
        (Sample.environment (some (Sample.connection
          (Except.error (Exception.other "unused")) (Except.ok ())
          (Except.error (Exception.QgsHanaException "transaction rolled back")))))
        Sample.provider "DROP TABLE T" =
      { calls := [DriverCall.execute "DROP TABLE T", DriverCall.commit]
        result := Except.error
          (Exception.QgsProviderConnectionException "transaction rolled back") } ∧
    execSql
        (Sample.environment (some
          { prepareStatement := fun _ =>
              Except.error (Exception.QgsHanaException "sql syntax error")
            executeQuery := fun _ => Except.error (Exception.other "unused")
            execute := fun _ => Except.ok ()
            commit := Except.ok () }))
        Sample.provider "SELEC 1" none 0 =
      some { calls := [DriverCall.prepareStatement "SELEC 1"]
             result := Except.error
               (Exception.QgsProviderConnectionException "sql syntax error") } :=
  ⟨((error_translation _ Sample.provider "DROP TABLE T" "transaction rolled back").2.1 _
      rfl).2 rfl rfl,
    ((error_translation _ Sample.provider "SELEC 1" "sql syntax error").2.2.2 none 0 _
      (Sample.provider_checks _ _) rfl rfl rfl).1 rfl⟩

/-- C3, as amended: every schema or table DDL method is one SQL string
formatted with quoted identifiers and handed to the connection.  With a
connection at hand and the capability check passed, each method makes exactly
one `execute` call, followed by exactly one `commit` when that call returned
and by nothing when it raised; identifiers may contain the marker texts %1, %2
or %3.  The statement is: `createSchema(n)`: CREATE SCHEMA q(n);
`dropSchema(n, force)`: DROP SCHEMA q(n) CASCADE when forced, DROP SCHEMA q(n)
and one blank otherwise; `renameSchema(n, m)`: RENAME SCHEMA q(n) TO q(m);
`dropVectorTable(s, t)`: DROP TABLE q(s).q(t); `renameVectorTable(s, t, u)`:
RENAME TABLE q(s).q(t) TO q(s).q(u), the renamed table staying in schema s. -/
theorem ddl_statements (env : Environment α) (self : QgsHanaProviderConnection)
    (conn : QgsHanaConnection α) (hconn : env.connectionRef self.uri = some conn) :
    (∀ n, env.checkCapability self.mCapabilities Capability.CreateSchema = Except.ok () →
      (createSchema env self n).calls
        = oneStatement conn ("CREATE SCHEMA " ++ env.quotedIdentifier n)) ∧
    (∀ n, env.checkCapability self.mCapabilities Capability.DropSchema = Except.ok () →
      (dropSchema env self n true).calls
        = oneStatement conn ("DROP SCHEMA " ++ env.quotedIdentifier n ++ " CASCADE") ∧
      (dropSchema env self n false).calls
        = oneStatement conn ("DROP SCHEMA " ++ env.quotedIdentifier n ++ " ")) ∧
    (∀ n m, env.checkCapability self.mCapabilities Capability.RenameSchema = Except.ok () →
      (renameSchema env self n m).calls
        = oneStatement conn
            ("RENAME SCHEMA " ++ env.quotedIdentifier n ++ " TO " ++ env.quotedIdentifier m)) ∧
    (∀ s t, env.checkCapability self.mCapabilities Capability.DropVectorTable = Except.ok () →
      (dropVectorTable env self s t).calls
        = oneStatement conn
            ("DROP TABLE " ++ env.quotedIdentifier s ++ "." ++ env.quotedIdentifier t)) ∧
    (∀ s t u,
      env.checkCapability self.mCapabilities Capability.RenameVectorTable = Except.ok () →
      (renameVectorTable env self s t u).calls
        = oneStatement conn
            ("RENAME TABLE " ++ env.quotedIdentifier s ++ "." ++ env.quotedIdentifier t ++
              " TO " ++ env.quotedIdentifier s ++ "." ++ env.quotedIdentifier u)) ∧
    (∀ sql,
      (conn.execute sql = Except.ok () →
        oneStatement conn sql = [DriverCall.execute sql, DriverCall.commit]) ∧
      (∀ e, conn.execute sql = Except.error e →
        oneStatement conn sql = [DriverCall.execute sql])) := by
  refine ⟨?_, ?_, ?_, ?_, ?_, ?_⟩
  · intro n hcheck
    simp only [createSchema, afterCheck, hcheck, executeSqlStatement_calls env self conn hconn,
      QString.arg_create_schema]
  · intro n hcheck
    refine ⟨?_, ?_⟩
    · simp only [dropSchema, afterCheck, hcheck, executeSqlStatement_calls env self conn hconn,
        QString.arg_drop_schema, if_true]
      have hs : "DROP SCHEMA " ++ env.quotedIdentifier n ++ " " ++ "CASCADE"
          = "DROP SCHEMA " ++ env.quotedIdentifier n ++ " CASCADE" := by
        apply String.ext
        simp [String.data_append]
      rw [hs]
    · simp only [dropSchema, afterCheck, hcheck, executeSqlStatement_calls env self conn hconn,
        QString.arg_drop_schema, Bool.false_eq_true, if_false]
      have hs : "DROP SCHEMA " ++ env.quotedIdentifier n ++ " " ++ ""
          = "DROP SCHEMA " ++ env.quotedIdentifier n ++ " " := by
        apply String.ext
        simp [String.data_append]
      rw [hs]
  · intro n m hcheck
    simp only [renameSchema, afterCheck, hcheck, executeSqlStatement_calls env self conn hconn,
      QString.arg_rename_schema]
  · intro s t hcheck
    simp only [dropVectorTable, dropTable, afterCheck, hcheck,
      executeSqlStatement_calls env self conn hconn, QString.arg_drop_table]
  · intro s t u hcheck
    simp only [renameVectorTable, renameTable, afterCheck, hcheck,
      executeSqlStatement_calls env self conn hconn, QString.arg_rename_table]
  · intro sql
    refine ⟨?_, ?_⟩
    · intro hx
      simp only [oneStatement, hx]
    · intro e hx
      simp only [oneStatement, hx]

/-- Witness of C3 as amended: a table renamed with identifiers that contain the
marker texts; the renamed table stays in its schema and the statement is
committed. -/
theorem ddl_statements_witness :
    (renameVectorTable
        (Sample.environment (some (Sample.connection
          (Except.error (Exception.other "unused")) (Except.ok ()) (Except.ok ()))))
        Sample.provider "S%2" "T%3" "U%1").calls =
      [DriverCall.execute
        ("RENAME TABLE " ++ Sample.quotedIdentifier "S%2" ++ "." ++ Sample.quotedIdentifier "T%3"
          ++ " TO " ++ Sample.quotedIdentifier "S%2" ++ "." ++ Sample.quotedIdentifier "U%1"),
       DriverCall.commit] :=
  ((ddl_statements
      (Sample.environment (some (Sample.connection
        (Except.error (Exception.other "unused")) (Except.ok ()) (Except.ok ()))))
      Sample.provider _ rfl).2.2.2.2.1 "S%2" "T%3" "U%1" (Sample.provider_checks _ _)).trans
    (((ddl_statements
      (Sample.environment (some (Sample.connection
        (Except.error (Exception.other "unused")) (Except.ok ()) (Except.ok ()))))
      Sample.provider _ rfl).2.2.2.2.2 _).1 rfl)

/-- Counterexample to C3 as stated: the capability check passes and a
connection is at hand, but `execute` raises; `createSchema` then makes its one
`execute` call and no `commit`, where the claim has exactly one. -/
theorem ddl_statements_counterexample :
    ((Sample.environment (some (Sample.connection
        (Except.error (Exception.other "unused"))
        (Except.error (Exception.QgsHanaException "insufficient privilege"))
        (Except.ok ())))).connectionRef Sample.provider.uri).isSome = true ∧
    (Sample.environment (some (Sample.connection
        (Except.error (Exception.other "unused"))
        (Except.error (Exception.QgsHanaException "insufficient privilege"))
        (Except.ok ())))).checkCapability Sample.provider.mCapabilities
        Capability.CreateSchema = Except.ok () ∧
    (createSchema
        (Sample.environment (some (Sample.connection
          (Except.error (Exception.other "unused"))
          (Except.error (Exception.QgsHanaException "insufficient privilege"))
          (Except.ok ()))))
        Sample.provider "GIS").calls =
      [DriverCall.execute ("CREATE SCHEMA " ++ Sample.quotedIdentifier "GIS")] ∧
    DriverCall.commit ∉ (createSchema
        (Sample.environment (some (Sample.connection
          (Except.error (Exception.other "unused"))
          (Except.error (Exception.QgsHanaException "insufficient privilege"))
          (Except.ok ()))))
        Sample.provider "GIS").calls := by
  have hcalls : (createSchema
        (Sample.environment (some (Sample.connection
          (Except.error (Exception.other "unused"))
          (Except.error (Exception.QgsHanaException "insufficient privilege"))
          (Except.ok ()))))
        Sample.provider "GIS").calls =
      [DriverCall.execute ("CREATE SCHEMA " ++ Sample.quotedIdentifier "GIS")] := by
    have hrun := executeSqlStatement_calls
      (Sample.environment (some (Sample.connection
        (Except.error (Exception.other "unused"))
        (Except.error (Exception.QgsHanaException "insufficient privilege"))
        (Except.ok ()))))
      Sample.provider _ rfl ("CREATE SCHEMA " ++ Sample.quotedIdentifier "GIS")
    simp only [createSchema, afterCheck, Sample.provider_checks, QString.arg_create_schema]
    exact hrun
  refine ⟨rfl, Sample.provider_checks _ _, hcalls, ?_⟩
  rw [hcalls]
  simp

end SqlClaims

/-! ## The model of `QString::arg` on concrete formats -/

/-- The model of `QString::arg` on concrete inputs: inserted text is not scanned
again, a repeated marker is replaced everywhere, the one-argument overload
replaces the lowest marker only and reads at most two digits, the
several-argument overload reads all digits and knows numbers up to 999, and
markers without an argument stay as written. -/
theorem arg_on_concrete_formats :
    QString.arg "DROP TABLE %1.%2" ["a%2", "%1b"] = "DROP TABLE a%2.%1b" ∧
    QString.arg "x %1 %3 %1" ["a%2", "%1b"] = "x a%2 %1b a%2" ∧
    QString.arg "x %2 %1 %3" ["a"] = "x %2 a %3" ∧
    QString.arg "x %L2 %12 %123" ["a"] = "x a %12 %123" ∧
    QString.arg "x %L2 %12 %123" ["a", "b"] = "x a b %123" ∧
    QString.arg "x %7 %1234 % %" ["a", "b"] = "x a %1234 % %" ∧
    QString.arg "x %7 %1234 % %" ["a"] = "x a %1234 % %" ∧
    QString.arg "x %7 %0999 %L03%" ["a", "b", "c"] = "x b c a%" := by
  decide

end QgsHana
